import Mathlib

/-!
Verification of the knex demo scripts: src/0-simple-demo/index.js and the
lesson script in src/unnamed/part_000. The scripts define async query
functions that submit raw SQL statements, with positional placeholder
values passed as a separate bound-parameter array, through a knex
connection handle, and a main entry point that runs them in sequence,
logs the results and destroys the handle.

The embedding has three layers:
- a syntactic layer: a Statement is the SQL text together with the list
  of bound parameter values, kept separate from the text; the connection
  handle is abstracted as a RawMethod mapping a Statement to either a
  database error or a query result, and each JS query function is a
  function of the RawMethod that submits its statement and projects the
  rows field of the result;
- a semantic layer: a database state Db holds the tables as lists of row
  records, and each literal SQL statement appearing in the source is
  given its relational meaning as a function of Db;
- a trace layer for the main entry points: the events a run emits
  (statement submissions, console logs, handle destruction).
-/

set_option maxRecDepth 16384

namespace PetsDb

/-- A JavaScript value passed as a SQL bound parameter: a string, a
number, or the undefined value that a missing argument produces. -/
inductive JsValue where
  | str : String → JsValue
  | num : Int → JsValue
  | undef : JsValue
deriving DecidableEq

/-- A row as delivered by the database client: an association of column
names to values. Opaque to the scripts, which only pass rows along. -/
def JsRow : Type := List (String × JsValue)

instance : DecidableEq JsRow :=
  inferInstanceAs (DecidableEq (List (String × JsValue)))

/-- A statement as submitted to knex.raw: the SQL text and the ordered
list of bound parameter values. The two travel separately; parameter
values are never concatenated into the text. -/
structure Statement where
  sql : String
  params : List JsValue
deriving DecidableEq

/-- Failures surfaced by the underlying database client. -/
inductive DbError where
  | connectivity
  | authentication
  | sqlError : String → DbError
deriving DecidableEq

/-- The query result object that knex.raw resolves to; the scripts only
ever read its rows field. -/
structure QueryResult where
  rows : List JsRow
deriving DecidableEq

/-- The raw method of the connection handle: one round trip mapping a
statement to a rejection or a query result. -/
def RawMethod : Type := Statement → Except DbError QueryResult

/-- JavaScript parameter fetch: argument i of the call, undefined when
the caller supplied fewer than i + 1 arguments. -/
def arg (args : List JsValue) (i : Nat) : JsValue :=
  args.getD i JsValue.undef

/-! SQL texts, verbatim from the source files. The template literal of
each dynamic query starts with the newline after the opening backtick
and ends with the final line indentation. -/

/-- SQL of getPets and of getPeople (both files, lines 5 and 13). -/
def selectPetsSql : String := "SELECT * FROM pets"

/-- SQL template of getPetsByOwnerNameAndType (both files, lines 18-23). -/
def petsByOwnerSql : String :=
  "\n    SELECT pets.name, pets.id\n    FROM pets\n      JOIN people ON pets.owner_id = people.id\n    WHERE people.name=? AND pets.type=?\n  "

/-- SQL template of getBooksByAuthor (part_000 lines 29-35). -/
def booksByAuthorSql : String :=
  "\n    SELECT books.title, books.published_year, authors.first_name, authors.last_name\n    FROM authors\n      JOIN author_book ON author_book.author_id = authors.id\n      JOIN books ON author_book.book_id = books.id\n    WHERE authors.first_name=? AND authors.last_name=?;\n  "

/-- SQL template of getProductsBoughtByCustomer (part_000 lines 41-48). -/
def productsByCustomerSql : String :=
  "\n    SELECT COUNT(*), products.name, products.price\n    FROM customers\n      JOIN orders ON orders.customer_id = customers.id\n      JOIN products ON orders.product_id = products.id\n    WHERE customers.name=?\n    GROUP BY products.name, products.price;\n  "

/-- SQL template of createPet (part_000 lines 317-321). -/
def createPetSql : String :=
  "\n    INSERT INTO pets (name, species, owner_id)\n    VALUES (?, ?, ?)\n    RETURNING *\n  "

/-- SQL template of updatePetNameByName (part_000 lines 335-340). -/
def updatePetSql : String :=
  "\n    UPDATE pets\n    SET name=?\n    WHERE name=?\n    RETURNING *\n  "

/-- SQL template of deletePetByName (part_000 lines 351-355). -/
def deletePetSql : String :=
  "\n    DELETE FROM pets\n    WHERE name=?\n    RETURNING *\n  "

/-! The statements each function submits, and the functions themselves
at the syntactic layer. Arguments are taken as the raw JS argument
list; a missing argument is undefined, an extra one is ignored, exactly
as JS binds parameters. Each function submits unconditionally and
returns the rows field of the result (or, for createPet, rows[0]). -/

/-- Statement submitted by getPets. -/
def getPets_stmt : Statement := ⟨selectPetsSql, []⟩

/-- Statement submitted by getPeople: the same SELECT over pets. -/
def getPeople_stmt : Statement := ⟨selectPetsSql, []⟩

/-- Statement submitted by getPetsByOwnerNameAndType(ownerName, type). -/
def getPetsByOwnerNameAndType_stmt (args : List JsValue) : Statement :=
  ⟨petsByOwnerSql, [arg args 0, arg args 1]⟩

/-- Statement submitted by getBooksByAuthor(firstName, lastName). -/
def getBooksByAuthor_stmt (args : List JsValue) : Statement :=
  ⟨booksByAuthorSql, [arg args 0, arg args 1]⟩

/-- Statement submitted by getProductsBoughtByCustomer(name). -/
def getProductsBoughtByCustomer_stmt (args : List JsValue) : Statement :=
  ⟨productsByCustomerSql, [arg args 0]⟩

/-- Statement submitted by createPet(name, species, ownerId). -/
def createPet_stmt (args : List JsValue) : Statement :=
  ⟨createPetSql, [arg args 0, arg args 1, arg args 2]⟩

/-- Statement submitted by updatePetNameByName(oldName, newName): note
the bound list is [newName, oldName], SET value first. -/
def updatePetNameByName_stmt (args : List JsValue) : Statement :=
  ⟨updatePetSql, [arg args 1, arg args 0]⟩

/-- Statement submitted by deletePetByName(name). -/
def deletePetByName_stmt (args : List JsValue) : Statement :=
  ⟨deletePetSql, [arg args 0]⟩

/-- getPets: submit SELECT * FROM pets, return result.rows. -/
def getPets_js (raw : RawMethod) : Except DbError (List JsRow) :=
  (raw getPets_stmt).map QueryResult.rows

/-- getPeople: destructure rows from the same SELECT over pets. -/
def getPeople_js (raw : RawMethod) : Except DbError (List JsRow) :=
  (raw getPeople_stmt).map QueryResult.rows

/-- getPetsByOwnerNameAndType: submit the join query with the two
arguments bound, return rows. -/
def getPetsByOwnerNameAndType_js (raw : RawMethod) (args : List JsValue) :
    Except DbError (List JsRow) :=
  (raw (getPetsByOwnerNameAndType_stmt args)).map QueryResult.rows

/-- getBooksByAuthor: submit the two-join query with the two arguments
bound, return rows. -/
def getBooksByAuthor_js (raw : RawMethod) (args : List JsValue) :
    Except DbError (List JsRow) :=
  (raw (getBooksByAuthor_stmt args)).map QueryResult.rows

/-- getProductsBoughtByCustomer: submit the grouped join query with the
one argument bound, return rows. -/
def getProductsBoughtByCustomer_js (raw : RawMethod) (args : List JsValue) :
    Except DbError (List JsRow) :=
  (raw (getProductsBoughtByCustomer_stmt args)).map QueryResult.rows

/-- createPet: submit the INSERT with three values bound, return
rows[0], which is undefined (none) when rows is empty. -/
def createPet_js (raw : RawMethod) (args : List JsValue) :
    Except DbError (Option JsRow) :=
  (raw (createPet_stmt args)).map (fun r => r.rows.head?)

/-- updatePetNameByName: submit the UPDATE, log rows[0]; the function
body has no return statement, so the resolved value carries no rows. -/
def updatePetNameByName_js (raw : RawMethod) (args : List JsValue) :
    Except DbError Unit :=
  (raw (updatePetNameByName_stmt args)).map (fun _ => ())

/-- deletePetByName: submit the DELETE, log rows[0]; no return
statement, so the resolved value carries no rows. -/
def deletePetByName_js (raw : RawMethod) (args : List JsValue) :
    Except DbError Unit :=
  (raw (deletePetByName_stmt args)).map (fun _ => ())

/-! Semantic layer: the database state and the relational meaning of
each literal SQL statement of the source. The lesson text names five
playground tables plus the challenge tables; only pets and people have
their columns fixed by the statements the code runs (pets.id,
pets.name, pets.type, pets.species, pets.owner_id; people.id,
people.name), so those two get typed rows and the rest stay opaque. -/

/-- A row of the pets table. The SELECT filters on the type column and
the INSERT sets the species column; both are nullable since INSERT
leaves columns it does not name NULL. -/
structure PetRow where
  id : Int
  name : String
  species : Option String
  type : Option String
  owner_id : Int
deriving DecidableEq

/-- A row of the people table. -/
structure PersonRow where
  id : Int
  name : String
deriving DecidableEq

/-- The database state: every table of the playground database, plus
the serial counter supplying the id of the next inserted pet. Tables
the statements never touch are opaque row lists. -/
structure Db where
  pets : List PetRow
  people : List PersonRow
  authors : List JsRow
  books : List JsRow
  author_book : List JsRow
  customers : List JsRow
  orders : List JsRow
  products : List JsRow
  nextPetId : Int
deriving DecidableEq

/-- Meaning of SELECT * FROM pets: every row of the pets table, in
table order. -/
def selectStarFromPets (db : Db) : List PetRow := db.pets

/-- Rows of getPets(): result.rows of the SELECT over pets. -/
def getPets_rows (db : Db) : List PetRow := selectStarFromPets db

/-- Rows of getPeople(): the destructured rows of the same SELECT over
pets; despite its name the function reads the pets table. -/
def getPeople_rows (db : Db) : List PetRow := selectStarFromPets db

/-- The projection SELECT pets.name, pets.id produces. -/
structure PetNameIdRow where
  name : String
  id : Int
deriving DecidableEq

/-- Meaning of FROM pets JOIN people ON pets.owner_id = people.id: all
pairs of a pets row and a people row agreeing on the join columns. -/
def petsJoinPeople (db : Db) : List (PetRow × PersonRow) :=
  db.pets.flatMap fun p =>
    (db.people.filter fun q => p.owner_id == q.id).map fun q => (p, q)

/-- Meaning of the getPetsByOwnerNameAndType query: the join, filtered
by WHERE people.name=? AND pets.type=?, projected to pets.name,
pets.id. A NULL type matches no type value. -/
def selectPetsByOwnerNameAndType (db : Db) (ownerName ty : String) :
    List PetNameIdRow :=
  ((petsJoinPeople db).filter fun pq =>
      pq.2.name == ownerName && pq.1.type == some ty).map
    fun pq => ⟨pq.1.name, pq.1.id⟩

/-- Meaning of INSERT INTO pets (name, species, owner_id) VALUES
(?, ?, ?) RETURNING *: append one row carrying the next serial id and
the three bound values, with the unnamed type column NULL; RETURNING *
yields exactly that row. -/
def insertPetReturning (db : Db) (name species : String) (ownerId : Int) :
    Db × List PetRow :=
  let row : PetRow := ⟨db.nextPetId, name, some species, none, ownerId⟩
  ({ db with pets := db.pets ++ [row], nextPetId := db.nextPetId + 1 }, [row])

/-- createPet on a database state: run the insert and return rows[0]
to the caller. -/
def createPet (db : Db) (name species : String) (ownerId : Int) :
    Db × Option PetRow :=
  let r := insertPetReturning db name species ownerId
  (r.1, r.2.head?)

/-- The SET name=? assignment applied to the rows the WHERE clause
selects: rename a pet when its name matches, keep it otherwise. -/
def renameIf (oldName newName : String) (p : PetRow) : PetRow :=
  if p.name == oldName then { p with name := newName } else p

/-- Meaning of UPDATE pets SET name=? WHERE name=? RETURNING *: every
pets row whose name matches gets the new name, all other rows and all
other tables are untouched, and RETURNING * yields the updated
matching rows. -/
def updatePetsReturning (db : Db) (newName oldName : String) :
    Db × List PetRow :=
  ({ db with pets := db.pets.map (renameIf oldName newName) },
   (db.pets.filter fun p => p.name == oldName).map (renameIf oldName newName))

/-- updatePetNameByName on a database state: run the update with bound
values [newName, oldName], log rows[0] (second component), and end
without a return statement, so the caller receives undefined (third
component none, where some would carry function-returned rows). -/
def updatePetNameByName (db : Db) (oldName newName : String) :
    Db × Option PetRow × Option (List PetRow) :=
  let r := updatePetsReturning db newName oldName
  (r.1, r.2.head?, none)

/-! Placeholder binding. knex hands the SQL text and the parameter
array to the driver, which pairs the placeholders with the values
positionally, left to right. bindChars renders that pairing: each
character of the text stays literal text, except that a question mark
consumes the next bound value and stands for that value as a bound
datum, never as spliced text. -/

/-- One token of a bound statement: a character of SQL text, or a bound
parameter value occupying a placeholder position. -/
def bindChars : List Char → List JsValue → List (Char ⊕ JsValue)
  | [], _ => []
  | c :: rest, vs =>
    if c = '?' then
      match vs with
      | [] => Sum.inl c :: bindChars rest []
      | v :: vs2 => Sum.inr v :: bindChars rest vs2
    else Sum.inl c :: bindChars rest vs

/-- The literal-text tokens of a placeholder-free SQL fragment. -/
def lits (s : String) : List (Char ⊕ JsValue) :=
  s.toList.map Sum.inl

/-- Number of positional placeholders in a SQL text. -/
def countPlaceholders (s : String) : Nat :=
  s.toList.count '?'

/-! The literal fragments between the placeholders of each template,
split so that template = seg0 ++ "?" ++ seg1 ++ "?" ++ ... -/

/-- getPetsByOwnerNameAndType template up to the first placeholder. -/
def petsByOwnerSeg0 : String :=
  "\n    SELECT pets.name, pets.id\n    FROM pets\n      JOIN people ON pets.owner_id = people.id\n    WHERE people.name="

/-- getPetsByOwnerNameAndType template between the placeholders. -/
def petsByOwnerSeg1 : String := " AND pets.type="

/-- getPetsByOwnerNameAndType template after the last placeholder. -/
def petsByOwnerSeg2 : String := "\n  "

/-- getBooksByAuthor template up to the first placeholder. -/
def booksSeg0 : String :=
  "\n    SELECT books.title, books.published_year, authors.first_name, authors.last_name\n    FROM authors\n      JOIN author_book ON author_book.author_id = authors.id\n      JOIN books ON author_book.book_id = books.id\n    WHERE authors.first_name="

/-- getBooksByAuthor template between the placeholders. -/
def booksSeg1 : String := " AND authors.last_name="

/-- getBooksByAuthor template after the last placeholder. -/
def booksSeg2 : String := ";\n  "

/-- getProductsBoughtByCustomer template up to its placeholder. -/
def productsSeg0 : String :=
  "\n    SELECT COUNT(*), products.name, products.price\n    FROM customers\n      JOIN orders ON orders.customer_id = customers.id\n      JOIN products ON orders.product_id = products.id\n    WHERE customers.name="

/-- getProductsBoughtByCustomer template after its placeholder. -/
def productsSeg1 : String := "\n    GROUP BY products.name, products.price;\n  "

/-- createPet template up to the first placeholder. -/
def createPetSeg0 : String :=
  "\n    INSERT INTO pets (name, species, owner_id)\n    VALUES ("

/-- createPet template between the first and second placeholders. -/
def createPetSeg1 : String := ", "

/-- createPet template between the second and third placeholders. -/
def createPetSeg2 : String := ", "

/-- createPet template after the last placeholder. -/
def createPetSeg3 : String := ")\n    RETURNING *\n  "

/-! Trace layer: the externally visible events of a run of main. A
rejected await aborts the rest of the function, so the trace after a
failed statement is cut short; on success, main logs each result and
destroys the connection handle last. -/

/-- An externally visible event of a run: a statement submitted to the
connection handle, a console log, or destruction of the handle. -/
inductive Event where
  | query : Statement → Event
  | log : Event
  | destroy : Event
deriving DecidableEq

/-- The statement main submits for annsDogs. -/
def annsDogs_stmt : Statement :=
  getPetsByOwnerNameAndType_stmt [JsValue.str "Ann Duong", JsValue.str "dog"]

/-- The statement main submits for JamesBaldwinBooks. -/
def baldwinBooks_stmt : Statement :=
  getBooksByAuthor_stmt [JsValue.str "James", JsValue.str "Baldwin"]

/-- The statement main submits for annsProducts. -/
def annsProducts_stmt : Statement :=
  getProductsBoughtByCustomer_stmt [JsValue.str "Ann"]

/-- Event trace of the main of src/unnamed/part_000: five awaited
queries in order, then five logs, then knex.destroy. -/
def mainEvents (raw : RawMethod) : List Event :=
  Event.query getPets_stmt ::
    match raw getPets_stmt with
    | .error _ => []
    | .ok _ =>
      Event.query getPeople_stmt ::
        match raw getPeople_stmt with
        | .error _ => []
        | .ok _ =>
          Event.query annsDogs_stmt ::
            match raw annsDogs_stmt with
            | .error _ => []
            | .ok _ =>
              Event.query baldwinBooks_stmt ::
                match raw baldwinBooks_stmt with
                | .error _ => []
                | .ok _ =>
                  Event.query annsProducts_stmt ::
                    match raw annsProducts_stmt with
                    | .error _ => []
                    | .ok _ =>
                      [Event.log, Event.log, Event.log, Event.log,
                       Event.log, Event.destroy]

/-- Event trace of the main of src/0-simple-demo/index.js: three
awaited queries in order, then three logs, then knex.destroy. -/
def mainDemoEvents (raw : RawMethod) : List Event :=
  Event.query getPets_stmt ::
    match raw getPets_stmt with
    | .error _ => []
    | .ok _ =>
      Event.query getPeople_stmt ::
        match raw getPeople_stmt with
        | .error _ => []
        | .ok _ =>
          Event.query annsDogs_stmt ::
            match raw annsDogs_stmt with
            | .error _ => []
            | .ok _ =>
              [Event.log, Event.log, Event.log, Event.destroy]

/-- Modelled from the spec: the open connection handle keeps the
process alive, so a run terminates cleanly exactly when its event
trace destroys the handle. The runtime event loop itself is not part
of the repository; the spec states that the program must explicitly
release the connection handle before the process can terminate
cleanly, and that omitting this leaves the process hanging. -/
def terminatesCleanly (evs : List Event) : Prop :=
  Event.destroy ∈ evs

instance (evs : List Event) : Decidable (terminatesCleanly evs) :=
  inferInstanceAs (Decidable (Event.destroy ∈ evs))

/-! Shared concrete objects used to instantiate theorems. -/

/-- A connection handle that answers every statement with no rows. -/
def rawOkEmpty : RawMethod := fun _ => Except.ok ⟨[]⟩

/-- A connection handle that rejects every statement with a
connectivity error. -/
def rawErr : RawMethod := fun _ => Except.error DbError.connectivity

/-- A database in which Ann Duong owns the dog Tora. -/
def dbAnn : Db :=
  ⟨[⟨4, "Tora", some "dog", some "dog", 1⟩], [⟨1, "Ann Duong"⟩],
   [], [], [], [], [], [], 8⟩

/-- A one-pet database used to exhibit the update behaviour. -/
def dbKhalo : Db :=
  ⟨[⟨1, "Khalo", some "dog", some "dog", 3⟩], [⟨3, "Ann Duong"⟩],
   [], [], [], [], [], [], 2⟩

/-! Helper lemmas about positional binding. -/

/-- A non-placeholder character stays literal text and consumes no
bound value. -/
theorem bindChars_cons_of_ne (c : Char) (rest : List Char)
    (vs : List JsValue) (h : ¬ c = '?') :
    bindChars (c :: rest) vs = Sum.inl c :: bindChars rest vs := by
  simp [bindChars, h]

/-- A placeholder consumes the next bound value and stands for it. -/
theorem bindChars_hole (rest : List Char) (v : JsValue) (vs : List JsValue) :
    bindChars ('?' :: rest) (v :: vs) = Sum.inr v :: bindChars rest vs := by
  simp [bindChars]

/-- Binding passes over a placeholder-free prefix as literal text. -/
theorem bindChars_append (xs ys : List Char) (vs : List JsValue)
    (h : '?' ∉ xs) :
    bindChars (xs ++ ys) vs = xs.map Sum.inl ++ bindChars ys vs := by
  induction xs with
  | nil => rfl
  | cons c cs ih =>
    simp only [List.mem_cons, not_or] at h
    rw [List.cons_append, bindChars_cons_of_ne c (cs ++ ys) vs (Ne.symm h.1),
      ih h.2, List.map_cons, List.cons_append]

/-- Binding a placeholder-free text is the identity on its characters. -/
theorem bindChars_no_hole (xs : List Char) (vs : List JsValue)
    (h : '?' ∉ xs) :
    bindChars xs vs = xs.map Sum.inl := by
  induction xs with
  | nil => rfl
  | cons c cs ih =>
    simp only [List.mem_cons, not_or] at h
    rw [bindChars_cons_of_ne c cs vs (Ne.symm h.1), ih h.2, List.map_cons]

/-- Positional binding of the getPetsByOwnerNameAndType template. -/
theorem bind_petsByOwner (a b : JsValue) :
    bindChars petsByOwnerSql.toList [a, b]
      = lits petsByOwnerSeg0
        ++ Sum.inr a :: (lits petsByOwnerSeg1
        ++ Sum.inr b :: lits petsByOwnerSeg2) := by
  have hdec : petsByOwnerSql.toList
      = petsByOwnerSeg0.toList
        ++ '?' :: (petsByOwnerSeg1.toList ++ '?' :: petsByOwnerSeg2.toList) := by
    decide
  rw [hdec, bindChars_append _ _ _ (by decide), bindChars_hole,
    bindChars_append _ _ _ (by decide), bindChars_hole,
    bindChars_no_hole _ _ (by decide)]
  rfl

/-- Positional binding of the getBooksByAuthor template. -/
theorem bind_books (a b : JsValue) :
    bindChars booksByAuthorSql.toList [a, b]
      = lits booksSeg0
        ++ Sum.inr a :: (lits booksSeg1 ++ Sum.inr b :: lits booksSeg2) := by
  have hdec : booksByAuthorSql.toList
      = booksSeg0.toList
        ++ '?' :: (booksSeg1.toList ++ '?' :: booksSeg2.toList) := by
    decide
  rw [hdec, bindChars_append _ _ _ (by decide), bindChars_hole,
    bindChars_append _ _ _ (by decide), bindChars_hole,
    bindChars_no_hole _ _ (by decide)]
  rfl

/-- Positional binding of the getProductsBoughtByCustomer template. -/
theorem bind_products (a : JsValue) :
    bindChars productsByCustomerSql.toList [a]
      = lits productsSeg0 ++ Sum.inr a :: lits productsSeg1 := by
  have hdec : productsByCustomerSql.toList
      = productsSeg0.toList ++ '?' :: productsSeg1.toList := by
    decide
  rw [hdec, bindChars_append _ _ _ (by decide), bindChars_hole,
    bindChars_no_hole _ _ (by decide)]
  rfl

/-- Positional binding of the createPet template. -/
theorem bind_createPet (a b c : JsValue) :
    bindChars createPetSql.toList [a, b, c]
      = lits createPetSeg0
        ++ Sum.inr a :: (lits createPetSeg1
        ++ Sum.inr b :: (lits createPetSeg2
        ++ Sum.inr c :: lits createPetSeg3)) := by
  have hdec : createPetSql.toList
      = createPetSeg0.toList
        ++ '?' :: (createPetSeg1.toList
        ++ '?' :: (createPetSeg2.toList ++ '?' :: createPetSeg3.toList)) := by
    decide
  rw [hdec, bindChars_append _ _ _ (by decide), bindChars_hole,
    bindChars_append _ _ _ (by decide), bindChars_hole,
    bindChars_append _ _ _ (by decide), bindChars_hole,
    bindChars_no_hole _ _ (by decide)]
  rfl

/-- C1: each parameterized query function submits its SQL template
verbatim, unchanged by the argument values, with the N caller-supplied
values as the separate bound-parameter list; each template splits into
literal fragments around exactly N placeholders, and positional
binding replaces the placeholders left to right by the corresponding
values, which enter as bound data (Sum.inr), never as concatenated
text. Covers getPetsByOwnerNameAndType, getBooksByAuthor,
getProductsBoughtByCustomer and createPet. -/
theorem parameterized_queries_bind_positionally (a b c : JsValue) :
    (getPetsByOwnerNameAndType_stmt [a, b] = ⟨petsByOwnerSql, [a, b]⟩
      ∧ petsByOwnerSql
          = petsByOwnerSeg0 ++ "?" ++ petsByOwnerSeg1 ++ "?" ++ petsByOwnerSeg2
      ∧ countPlaceholders petsByOwnerSql = 2
      ∧ bindChars petsByOwnerSql.toList [a, b]
          = lits petsByOwnerSeg0
            ++ Sum.inr a :: (lits petsByOwnerSeg1
            ++ Sum.inr b :: lits petsByOwnerSeg2))
    ∧ (getBooksByAuthor_stmt [a, b] = ⟨booksByAuthorSql, [a, b]⟩
      ∧ booksByAuthorSql = booksSeg0 ++ "?" ++ booksSeg1 ++ "?" ++ booksSeg2
      ∧ countPlaceholders booksByAuthorSql = 2
      ∧ bindChars booksByAuthorSql.toList [a, b]
          = lits booksSeg0
            ++ Sum.inr a :: (lits booksSeg1 ++ Sum.inr b :: lits booksSeg2))
    ∧ (getProductsBoughtByCustomer_stmt [a] = ⟨productsByCustomerSql, [a]⟩
      ∧ productsByCustomerSql = productsSeg0 ++ "?" ++ productsSeg1
      ∧ countPlaceholders productsByCustomerSql = 1
      ∧ bindChars productsByCustomerSql.toList [a]
          = lits productsSeg0 ++ Sum.inr a :: lits productsSeg1)
    ∧ (createPet_stmt [a, b, c] = ⟨createPetSql, [a, b, c]⟩
      ∧ createPetSql
          = createPetSeg0 ++ "?" ++ createPetSeg1 ++ "?" ++ createPetSeg2
            ++ "?" ++ createPetSeg3
      ∧ countPlaceholders createPetSql = 3
      ∧ bindChars createPetSql.toList [a, b, c]
          = lits createPetSeg0
            ++ Sum.inr a :: (lits createPetSeg1
            ++ Sum.inr b :: (lits createPetSeg2
            ++ Sum.inr c :: lits createPetSeg3))) := by
  refine ⟨⟨rfl, by rfl, by decide, bind_petsByOwner a b⟩,
    ⟨rfl, by rfl, by decide, bind_books a b⟩,
    ⟨rfl, by rfl, by decide, bind_products a⟩,
    ⟨rfl, by rfl, by decide, bind_createPet a b c⟩⟩

/-- C4: the INSERT with RETURNING * returns exactly one row, carrying
the serial id and the just-inserted name, species and owner_id values,
the insert appends exactly that row to the pets table, and createPet
hands the row to its caller as rows[0]. -/
theorem createPet_returns_inserted_row (db : Db) (n s : String) (o : Int) :
    (insertPetReturning db n s o).2 = [⟨db.nextPetId, n, some s, none, o⟩]
    ∧ (insertPetReturning db n s o).2.length = 1
    ∧ (createPet db n s o).2 = some ⟨db.nextPetId, n, some s, none, o⟩
    ∧ (insertPetReturning db n s o).1.pets
        = db.pets ++ [⟨db.nextPetId, n, some s, none, o⟩] :=
  ⟨rfl, rfl, rfl, rfl⟩

/-- C10: getPeople submits the identical SELECT over the pets table
and returns the same rows as getPets, both at the call layer, for
every connection handle, and on every database state, where both read
the pets table. -/
theorem getPeople_equals_getPets :
    getPeople_stmt = getPets_stmt
    ∧ (∀ raw : RawMethod, getPeople_js raw = getPets_js raw)
    ∧ (∀ db : Db, getPeople_rows db = getPets_rows db)
    ∧ (∀ db : Db, getPeople_rows db = db.pets) :=
  ⟨rfl, fun _ => rfl, fun _ => rfl, fun _ => rfl⟩

/-- C3: getPets returns every row of the pets table: on any database
state its rows are exactly the pets table, and at the call layer its
value is precisely the rows field of the query result the connection
handle produces for SELECT * FROM pets. -/
theorem getPets_returns_all_pets (db : Db) (raw : RawMethod)
    (rs : List JsRow) (h : raw getPets_stmt = Except.ok ⟨rs⟩) :
    getPets_rows db = db.pets
    ∧ (∀ p : PetRow, p ∈ getPets_rows db ↔ p ∈ db.pets)
    ∧ getPets_js raw = Except.ok rs := by
  refine ⟨rfl, fun p => Iff.rfl, ?_⟩
  simp [getPets_js, h, Except.map]

/-- Witness for C3 at the concrete database dbAnn and the connection
handle answering with no rows. -/
theorem getPets_returns_all_pets_witness :
    getPets_rows dbAnn = dbAnn.pets
    ∧ (∀ p : PetRow, p ∈ getPets_rows dbAnn ↔ p ∈ dbAnn.pets)
    ∧ getPets_js rawOkEmpty = Except.ok [] :=
  getPets_returns_all_pets dbAnn rawOkEmpty [] rfl

/-- C6: every query function propagates a rejection of its submitted
statement unmodified to its caller: when the connection handle rejects
the statement with an error, the function resolves to that very error,
with no catch, retry or translation. -/
theorem db_errors_propagate_unmodified (raw : RawMethod) (e : DbError)
    (args : List JsValue) :
    (raw getPets_stmt = Except.error e → getPets_js raw = Except.error e)
    ∧ (raw getPeople_stmt = Except.error e →
        getPeople_js raw = Except.error e)
    ∧ (raw (getPetsByOwnerNameAndType_stmt args) = Except.error e →
        getPetsByOwnerNameAndType_js raw args = Except.error e)
    ∧ (raw (getBooksByAuthor_stmt args) = Except.error e →
        getBooksByAuthor_js raw args = Except.error e)
    ∧ (raw (getProductsBoughtByCustomer_stmt args) = Except.error e →
        getProductsBoughtByCustomer_js raw args = Except.error e)
    ∧ (raw (createPet_stmt args) = Except.error e →
        createPet_js raw args = Except.error e)
    ∧ (raw (updatePetNameByName_stmt args) = Except.error e →
        updatePetNameByName_js raw args = Except.error e)
    ∧ (raw (deletePetByName_stmt args) = Except.error e →
        deletePetByName_js raw args = Except.error e) := by
  refine ⟨fun h => ?_, fun h => ?_, fun h => ?_, fun h => ?_, fun h => ?_,
    fun h => ?_, fun h => ?_, fun h => ?_⟩ <;>
    simp [getPets_js, getPeople_js, getPetsByOwnerNameAndType_js,
      getBooksByAuthor_js, getProductsBoughtByCustomer_js, createPet_js,
      updatePetNameByName_js, deletePetByName_js, h, Except.map]

/-- Witness for C6: a connection handle rejecting everything with a
connectivity error makes getPets resolve to that same error. -/
theorem db_errors_propagate_unmodified_witness :
    getPets_js rawErr = Except.error DbError.connectivity :=
  (db_errors_propagate_unmodified rawErr DbError.connectivity []).1 rfl

/-- C2: every row getPetsByOwnerNameAndType returns for Ann Duong and
dog comes from a pets row joined to a people row on owner_id = id,
with owner name Ann Duong and pet type dog, and the returned row
carries that pet's name and id. -/
theorem annsDogs_rows_sound (db : Db) (r : PetNameIdRow)
    (hr : r ∈ selectPetsByOwnerNameAndType db "Ann Duong" "dog") :
    ∃ p ∈ db.pets, ∃ q ∈ db.people,
      p.owner_id = q.id ∧ q.name = "Ann Duong" ∧ p.type = some "dog"
      ∧ r = ⟨p.name, p.id⟩ := by
  unfold selectPetsByOwnerNameAndType at hr
  rw [List.mem_map] at hr
  obtain ⟨pq, hpq, hproj⟩ := hr
  rw [List.mem_filter] at hpq
  obtain ⟨hmem, hpred⟩ := hpq
  unfold petsJoinPeople at hmem
  rw [List.mem_flatMap] at hmem
  obtain ⟨p, hp, hq⟩ := hmem
  rw [List.mem_map] at hq
  obtain ⟨q, hq2, heq⟩ := hq
  rw [List.mem_filter] at hq2
  obtain ⟨hqmem, hqid⟩ := hq2
  subst heq
  simp only [Bool.and_eq_true, beq_iff_eq] at hpred hqid
  exact ⟨p, hp, q, hqmem, hqid, hpred.1, hpred.2, hproj.symm⟩

/-- Witness for C2 at the concrete database dbAnn, where the returned
row for Tora is traced back to its pets and people rows. -/
theorem annsDogs_rows_sound_witness :
    ∃ p ∈ dbAnn.pets, ∃ q ∈ dbAnn.people,
      p.owner_id = q.id ∧ q.name = "Ann Duong" ∧ p.type = some "dog"
      ∧ (⟨"Tora", 4⟩ : PetNameIdRow) = ⟨p.name, p.id⟩ :=
  annsDogs_rows_sound dbAnn ⟨"Tora", 4⟩ (by decide)

/-- C5 counterexample: on the one-pet database dbKhalo, renaming Khalo
to K2 does change a row and the RETURNING clause does produce it, yet
updatePetNameByName hands its caller undefined, not the changed
rows. -/
theorem updatePet_caller_gets_undefined :
    (updatePetsReturning dbKhalo "K2" "Khalo").2 ≠ []
    ∧ (updatePetNameByName dbKhalo "Khalo" "K2").2.2 = none
    ∧ ¬ (updatePetNameByName dbKhalo "Khalo" "K2").2.2
        = some ((updatePetsReturning dbKhalo "K2" "Khalo").2) :=
  ⟨by decide, rfl, by decide⟩

/-- C5 amended: the update rewrites the pets table pointwise, renaming
exactly the rows whose name equals oldName while leaving any other row
in place, leaves every other table and the serial counter unchanged,
and the RETURNING clause yields exactly the updated matching rows; the
function logs the first of them and returns undefined (none) to its
caller rather than the rows. -/
theorem updatePetNameByName_frame (db : Db) (oldName newName : String) :
    (∀ i : Nat, (updatePetNameByName db oldName newName).1.pets[i]?
        = (db.pets[i]?).map (renameIf oldName newName))
    ∧ (∀ p : PetRow, ¬ p.name = oldName → renameIf oldName newName p = p)
    ∧ (updatePetNameByName db oldName newName).1.people = db.people
    ∧ (updatePetNameByName db oldName newName).1.authors = db.authors
    ∧ (updatePetNameByName db oldName newName).1.books = db.books
    ∧ (updatePetNameByName db oldName newName).1.author_book = db.author_book
    ∧ (updatePetNameByName db oldName newName).1.customers = db.customers
    ∧ (updatePetNameByName db oldName newName).1.orders = db.orders
    ∧ (updatePetNameByName db oldName newName).1.products = db.products
    ∧ (updatePetNameByName db oldName newName).1.nextPetId = db.nextPetId
    ∧ (updatePetsReturning db newName oldName).2
        = (db.pets.filter fun p => p.name == oldName).map
            (renameIf oldName newName)
    ∧ (updatePetNameByName db oldName newName).2.1
        = ((updatePetsReturning db newName oldName).2).head?
    ∧ (updatePetNameByName db oldName newName).2.2 = none := by
  refine ⟨fun i => ?_, fun p hp => ?_, rfl, rfl, rfl, rfl, rfl, rfl, rfl,
    rfl, rfl, rfl, rfl⟩
  · simp [updatePetNameByName, updatePetsReturning]
  · simp [renameIf, beq_iff_eq, hp]

/-- Witness for C5 amended at the concrete database dbKhalo: the row
at position 0 is renamed in place, and a pet named otherwise is left
untouched. -/
theorem updatePetNameByName_frame_witness :
    (updatePetNameByName dbKhalo "Khalo" "K2").1.pets[0]?
        = (dbKhalo.pets[0]?).map (renameIf "Khalo" "K2")
    ∧ renameIf "Khalo" "K2" ⟨5, "Frida", some "cat", some "cat", 3⟩
        = ⟨5, "Frida", some "cat", some "cat", 3⟩ :=
  ⟨(updatePetNameByName_frame dbKhalo "Khalo" "K2").1 0,
   (updatePetNameByName_frame dbKhalo "Khalo" "K2").2.1
     ⟨5, "Frida", some "cat", some "cat", 3⟩ (by decide)⟩

/-- Under a connection handle that answers every statement, the main
of part_000 emits the full fixed sequence of events. -/
theorem mainEvents_of_ok (raw : RawMethod)
    (h : ∀ st, ∃ r, raw st = Except.ok r) :
    mainEvents raw
      = [Event.query getPets_stmt, Event.query getPeople_stmt,
         Event.query annsDogs_stmt, Event.query baldwinBooks_stmt,
         Event.query annsProducts_stmt, Event.log, Event.log, Event.log,
         Event.log, Event.log, Event.destroy] := by
  obtain ⟨r1, h1⟩ := h getPets_stmt
  obtain ⟨r2, h2⟩ := h getPeople_stmt
  obtain ⟨r3, h3⟩ := h annsDogs_stmt
  obtain ⟨r4, h4⟩ := h baldwinBooks_stmt
  obtain ⟨r5, h5⟩ := h annsProducts_stmt
  simp [mainEvents, h1, h2, h3, h4, h5]

/-- Under a connection handle that answers every statement, the main
of the simple demo emits its full fixed sequence of events. -/
theorem mainDemoEvents_of_ok (raw : RawMethod)
    (h : ∀ st, ∃ r, raw st = Except.ok r) :
    mainDemoEvents raw
      = [Event.query getPets_stmt, Event.query getPeople_stmt,
         Event.query annsDogs_stmt, Event.log, Event.log, Event.log,
         Event.destroy] := by
  obtain ⟨r1, h1⟩ := h getPets_stmt
  obtain ⟨r2, h2⟩ := h getPeople_stmt
  obtain ⟨r3, h3⟩ := h annsDogs_stmt
  simp [mainDemoEvents, h1, h2, h3]

/-- C8: each entry point invokes the query functions in one fixed
linear order, awaiting each statement before submitting the next; when
every statement succeeds the trace is the same fixed sequence whatever
data the queries return, so nothing branches on results, the logs
follow the queries and the destroy ends the run; and a statement that
fails cuts the sequence at that await. -/
theorem main_runs_fixed_sequence (raw : RawMethod)
    (h : ∀ st, ∃ r, raw st = Except.ok r)
    (raw2 : RawMethod) (e : DbError)
    (h2 : raw2 getPets_stmt = Except.error e) :
    mainEvents raw
      = [Event.query getPets_stmt, Event.query getPeople_stmt,
         Event.query annsDogs_stmt, Event.query baldwinBooks_stmt,
         Event.query annsProducts_stmt, Event.log, Event.log, Event.log,
         Event.log, Event.log, Event.destroy]
    ∧ mainDemoEvents raw
      = [Event.query getPets_stmt, Event.query getPeople_stmt,
         Event.query annsDogs_stmt, Event.log, Event.log, Event.log,
         Event.destroy]
    ∧ mainEvents raw2 = [Event.query getPets_stmt]
    ∧ mainDemoEvents raw2 = [Event.query getPets_stmt] := by
  refine ⟨mainEvents_of_ok raw h, mainDemoEvents_of_ok raw h, ?_, ?_⟩ <;>
    simp [mainEvents, mainDemoEvents, h2]

/-- Witness for C8 with the all-rows-empty connection handle and the
always-rejecting one. -/
theorem main_runs_fixed_sequence_witness :
    mainEvents rawOkEmpty
      = [Event.query getPets_stmt, Event.query getPeople_stmt,
         Event.query annsDogs_stmt, Event.query baldwinBooks_stmt,
         Event.query annsProducts_stmt, Event.log, Event.log, Event.log,
         Event.log, Event.log, Event.destroy]
    ∧ mainDemoEvents rawOkEmpty
      = [Event.query getPets_stmt, Event.query getPeople_stmt,
         Event.query annsDogs_stmt, Event.log, Event.log, Event.log,
         Event.destroy]
    ∧ mainEvents rawErr = [Event.query getPets_stmt]
    ∧ mainDemoEvents rawErr = [Event.query getPets_stmt] :=
  main_runs_fixed_sequence rawOkEmpty (fun _ => ⟨⟨[]⟩, rfl⟩) rawErr
    DbError.connectivity rfl

/-- C7: both entry points destroy the connection handle as the final
event of a successful run, and such a run terminates cleanly, while
any trace that never destroys the handle does not terminate cleanly:
termination happens exactly when the handle is released. -/
theorem destroy_required_for_termination (raw : RawMethod)
    (h : ∀ st, ∃ r, raw st = Except.ok r)
    (evs : List Event) (hno : Event.destroy ∉ evs) :
    terminatesCleanly (mainEvents raw)
    ∧ (mainEvents raw).getLast? = some Event.destroy
    ∧ terminatesCleanly (mainDemoEvents raw)
    ∧ (mainDemoEvents raw).getLast? = some Event.destroy
    ∧ ¬ terminatesCleanly evs := by
  rw [mainEvents_of_ok raw h, mainDemoEvents_of_ok raw h]
  exact ⟨by simp [terminatesCleanly], rfl, by simp [terminatesCleanly],
    rfl, hno⟩

/-- Witness for C7 with the all-rows-empty connection handle and a
destroy-free trace. -/
theorem destroy_required_for_termination_witness :
    terminatesCleanly (mainEvents rawOkEmpty)
    ∧ (mainEvents rawOkEmpty).getLast? = some Event.destroy
    ∧ terminatesCleanly (mainDemoEvents rawOkEmpty)
    ∧ (mainDemoEvents rawOkEmpty).getLast? = some Event.destroy
    ∧ ¬ terminatesCleanly [Event.log] :=
  destroy_required_for_termination rawOkEmpty (fun _ => ⟨⟨[]⟩, rfl⟩)
    [Event.log] (by decide)

/-- C9: no query function validates its arguments before submitting.
For every argument list, including one supplying fewer values than the
template has placeholders, each of the eight query functions submits
its statement, with missing argument positions bound as the undefined
value, and its result is exactly the connection handle's answer at
that single statement; two handles agreeing there are
indistinguishable to the parameterized functions, so nothing else
about the arguments is consulted; and a call with no arguments at all
is still submitted, unchecked, with every placeholder position bound
to undefined. -/
theorem no_argument_validation (raw raw2 : RawMethod) (args : List JsValue) :
    (getPets_js raw = (raw ⟨selectPetsSql, []⟩).map QueryResult.rows)
    ∧ (getPeople_js raw = (raw ⟨selectPetsSql, []⟩).map QueryResult.rows)
    ∧ (getPetsByOwnerNameAndType_js raw args
        = (raw ⟨petsByOwnerSql, [arg args 0, arg args 1]⟩).map
            QueryResult.rows)
    ∧ (getBooksByAuthor_js raw args
        = (raw ⟨booksByAuthorSql, [arg args 0, arg args 1]⟩).map
            QueryResult.rows)
    ∧ (getProductsBoughtByCustomer_js raw args
        = (raw ⟨productsByCustomerSql, [arg args 0]⟩).map QueryResult.rows)
    ∧ (createPet_js raw args
        = (raw ⟨createPetSql, [arg args 0, arg args 1, arg args 2]⟩).map
            (fun r => r.rows.head?))
    ∧ (updatePetNameByName_js raw args
        = (raw ⟨updatePetSql, [arg args 1, arg args 0]⟩).map (fun _ => ()))
    ∧ (deletePetByName_js raw args
        = (raw ⟨deletePetSql, [arg args 0]⟩).map (fun _ => ()))
    ∧ (raw (getPetsByOwnerNameAndType_stmt args)
          = raw2 (getPetsByOwnerNameAndType_stmt args) →
        getPetsByOwnerNameAndType_js raw args
          = getPetsByOwnerNameAndType_js raw2 args)
    ∧ (raw (updatePetNameByName_stmt args)
          = raw2 (updatePetNameByName_stmt args) →
        updatePetNameByName_js raw args = updatePetNameByName_js raw2 args)
    ∧ (raw (deletePetByName_stmt args) = raw2 (deletePetByName_stmt args) →
        deletePetByName_js raw args = deletePetByName_js raw2 args)
    ∧ getPetsByOwnerNameAndType_stmt []
        = ⟨petsByOwnerSql, [JsValue.undef, JsValue.undef]⟩
    ∧ updatePetNameByName_stmt []
        = ⟨updatePetSql, [JsValue.undef, JsValue.undef]⟩
    ∧ deletePetByName_stmt [] = ⟨deletePetSql, [JsValue.undef]⟩ := by
  refine ⟨rfl, rfl, rfl, rfl, rfl, rfl, rfl, rfl, fun h => ?_, fun h => ?_,
    fun h => ?_, rfl, rfl, rfl⟩
  · simp [getPetsByOwnerNameAndType_js, h]
  · simp [updatePetNameByName_js, h]
  · simp [deletePetByName_js, h]

/-- Witness for C9: no-argument calls against the rejecting handle are
still the handle's answer at the padded statement, for the select, the
update and the delete functions, and two equal handles give the update
and the delete equal answers. -/
theorem no_argument_validation_witness :
    (getPetsByOwnerNameAndType_js rawErr []
        = (rawErr ⟨petsByOwnerSql, [arg [] 0, arg [] 1]⟩).map
            QueryResult.rows)
    ∧ (updatePetNameByName_js rawErr []
        = (rawErr ⟨updatePetSql, [arg [] 1, arg [] 0]⟩).map (fun _ => ()))
    ∧ (deletePetByName_js rawErr []
        = (rawErr ⟨deletePetSql, [arg [] 0]⟩).map (fun _ => ()))
    ∧ updatePetNameByName_js rawOkEmpty []
        = updatePetNameByName_js rawOkEmpty []
    ∧ deletePetByName_js rawOkEmpty [] = deletePetByName_js rawOkEmpty [] :=
  ⟨(no_argument_validation rawErr rawErr []).2.2.1,
   (no_argument_validation rawErr rawErr []).2.2.2.2.2.2.1,
   (no_argument_validation rawErr rawErr []).2.2.2.2.2.2.2.1,
   (no_argument_validation rawOkEmpty rawOkEmpty []).2.2.2.2.2.2.2.2.2.1 rfl,
   (no_argument_validation rawOkEmpty rawOkEmpty []).2.2.2.2.2.2.2.2.2.2.1
     rfl⟩

end PetsDb
